import Mathlib

/-!
# Verification of the rancher-cac resource adapters

Shallow embedding of `src/prtb.rs` and `src/rt.rs`: the wire models
(generated `rancher_client` structs, as far as this repository reads or
writes them), the flattened domain structs, the fallible conversions in
both directions, the cross-type equality relations, and the
response-classification logic of the list-query functions.

`std::collections::HashMap<String, String>` is modelled as an association
list; every operation of this repository copies such maps wholesale
(`a.into_iter().collect()` is an identity on contents), so the list model
is exact for everything proved here. HTTP status codes are modelled as
`Nat` (`StatusCode::OK` is 200). `serde_json` decoding of a raw body and
the transport call itself are external collaborators: they are passed as
parameters (`decodeList`, `decodeJson`, and the already-awaited transport
`result`).
-/

namespace RancherCac

/-- Association-list model of `std::collections::HashMap<String, String>`. -/
abbrev StrMap := List (String × String)

instance {ε α : Type _} [DecidableEq ε] [DecidableEq α] :
    DecidableEq (Except ε α) := fun x y =>
  match x, y with
  | .ok a, .ok b =>
    if h : a = b then isTrue (h ▸ rfl)
    else isFalse fun hh => h (Except.ok.inj hh)
  | .ok _, .error _ => isFalse fun hh => Except.noConfusion hh
  | .error _, .ok _ => isFalse fun hh => Except.noConfusion hh
  | .error a, .error b =>
    if h : a = b then isTrue (h ▸ rfl)
    else isFalse fun hh => h (Except.error.inj hh)

/-- `IoK8sApimachineryPkgApisMetaV1ObjectMeta`: the generic Kubernetes
metadata envelope. Fields `name`, `namespace`, `labels`, `annotations`,
`resource_version` and `uid` are the ones this repository reads or writes;
the remaining fields stand for the server-managed bookkeeping
(`creationTimestamp`, `finalizers`, `generateName`, `generation`,
`managedFields`, `selfLink`) that the adapters never touch. All fields
default to `none`, mirroring `Default::default()`. The Rust field
`namespace` is rendered `namespace_` because `namespace` is a Lean
keyword. -/
structure IoK8sApimachineryPkgApisMetaV1ObjectMeta where
  annotations : Option StrMap := none
  creation_timestamp : Option String := none
  finalizers : Option (List String) := none
  generate_name : Option String := none
  generation : Option Int := none
  labels : Option StrMap := none
  managed_fields : Option (List String) := none
  name : Option String := none
  namespace_ : Option String := none
  resource_version : Option String := none
  self_link : Option String := none
  uid : Option String := none
deriving DecidableEq, Repr

/-- `io_cattle_managementv3_role_template::Context`: the generated enum for
a role template's context. Opaque to this repository (copied and compared
wholesale). -/
inductive Context where
  | project
  | cluster
deriving DecidableEq, Repr

/-- `IoCattleManagementv3GlobalRoleRulesInner`: one policy rule of a role
template. Opaque to this repository (copied and compared wholesale);
modelled with the Kubernetes policy-rule field set. -/
structure IoCattleManagementv3GlobalRoleRulesInner where
  api_groups : Option (List String) := none
  non_resource_urls : Option (List String) := none
  resource_names : Option (List String) := none
  resources : Option (List String) := none
  verbs : Option (List String) := none
deriving DecidableEq, Repr

/-- Wire model `IoCattleManagementv3ProjectRoleTemplateBinding`: metadata
envelope plus the binding-specific fields. `project_name` and
`role_template_name` are required (plain `String`) in the generated model;
the rest are optional. -/
structure IoCattleManagementv3ProjectRoleTemplateBinding where
  api_version : Option String := none
  group_name : Option String := none
  group_principal_name : Option String := none
  kind : Option String := none
  metadata : Option IoK8sApimachineryPkgApisMetaV1ObjectMeta := none
  project_name : String
  role_template_name : String
  service_account : Option String := none
  user_name : Option String := none
  user_principal_name : Option String := none
deriving DecidableEq, Repr

/-- Domain model `ProjectRoleTemplateBinding` (src/prtb.rs lines 190-230):
flattened struct with `id` sourced from `metadata.name` and `namespace`
a non-optional string. -/
structure ProjectRoleTemplateBinding where
  annotations : Option StrMap := none
  group_name : Option String := none
  group_principal_name : Option String := none
  id : String
  labels : Option StrMap := none
  namespace_ : String
  project_name : String
  role_template_name : String
  resource_version : Option String := none
  service_account : Option String := none
  uid : Option String := none
  user_name : Option String := none
  user_principal_name : Option String := none
deriving DecidableEq, Repr

/-- Wire model `IoCattleManagementv3RoleTemplate`: metadata envelope plus
the role-template-specific fields, all optional in the generated model. -/
structure IoCattleManagementv3RoleTemplate where
  administrative : Option Bool := none
  api_version : Option String := none
  builtin : Option Bool := none
  cluster_creator_default : Option Bool := none
  context : Option Context := none
  description : Option String := none
  display_name : Option String := none
  external : Option Bool := none
  hidden : Option Bool := none
  kind : Option String := none
  locked : Option Bool := none
  metadata : Option IoK8sApimachineryPkgApisMetaV1ObjectMeta := none
  project_creator_default : Option Bool := none
  role_template_names : Option (List String) := none
  rules : Option (List IoCattleManagementv3GlobalRoleRulesInner) := none
deriving DecidableEq, Repr

/-- Domain model `RoleTemplate` (src/rt.rs lines 111-145): flattened struct
with `id` sourced from `metadata.name`; every other field optional. -/
structure RoleTemplate where
  administrative : Option Bool := none
  annotations : Option StrMap := none
  builtin : Option Bool := none
  cluster_creator_default : Option Bool := none
  context : Option Context := none
  description : Option String := none
  display_name : Option String := none
  external : Option Bool := none
  hidden : Option Bool := none
  labels : Option StrMap := none
  locked : Option Bool := none
  id : String
  project_creator_default : Option Bool := none
  role_template_names : Option (List String) := none
  rules : Option (List IoCattleManagementv3GlobalRoleRulesInner) := none
deriving DecidableEq, Repr

/-- `impl TryFrom<IoCattleManagementv3ProjectRoleTemplateBinding> for
ProjectRoleTemplateBinding` (src/prtb.rs lines 266-315): wire to domain.
Requires the metadata block (`ok_or("missing metadata")?`), then the name
(`ok_or("missing name")?`); copies every other field through, converting
the maps contents-identically and defaulting `namespace` to the empty
string (`unwrap_or_default`). -/
def ProjectRoleTemplateBinding.try_from
    (value : IoCattleManagementv3ProjectRoleTemplateBinding) :
    Except String ProjectRoleTemplateBinding :=
  match value.metadata with
  | none => .error "missing metadata"
  | some metadata =>
    match metadata.name with
    | none => .error "missing name"
    | some id =>
      .ok { id := id
            group_name := value.group_name
            group_principal_name := value.group_principal_name
            project_name := value.project_name
            role_template_name := value.role_template_name
            service_account := value.service_account
            user_name := value.user_name
            user_principal_name := value.user_principal_name
            annotations := metadata.annotations
            labels := metadata.labels
            namespace_ := metadata.namespace_.getD ""
            resource_version := metadata.resource_version
            uid := metadata.uid }

/-- `impl TryFrom<ProjectRoleTemplateBinding> for
IoCattleManagementv3ProjectRoleTemplateBinding` (src/prtb.rs lines
317-343): domain to wire. Builds metadata from annotations, labels,
namespace and name, leaving the remaining metadata fields at
`Default::default()`, and synthesizes the `api_version` and `kind`
constants. -/
def IoCattleManagementv3ProjectRoleTemplateBinding.try_from
    (value : ProjectRoleTemplateBinding) :
    Except String IoCattleManagementv3ProjectRoleTemplateBinding :=
  let metadata : IoK8sApimachineryPkgApisMetaV1ObjectMeta :=
    { annotations := value.annotations
      labels := value.labels
      namespace_ := some value.namespace_
      name := some value.id }
  .ok { api_version := some "management.cattle.io/v3"
        group_name := value.group_name
        group_principal_name := value.group_principal_name
        kind := some "ProjectRoleTemplateBinding"
        metadata := some metadata
        project_name := value.project_name
        role_template_name := value.role_template_name
        service_account := value.service_account
        user_name := value.user_name
        user_principal_name := value.user_principal_name }

/-- `impl TryFrom<IoCattleManagementv3RoleTemplate> for RoleTemplate`
(src/rt.rs lines 185-224): wire to domain. Requires the metadata block
(`ok_or("missing metadata")?`) and the name
(`ok_or("missing metadata.name")?`); copies every other field through. -/
def RoleTemplate.try_from (value : IoCattleManagementv3RoleTemplate) :
    Except String RoleTemplate :=
  match value.metadata with
  | none => .error "missing metadata"
  | some metadata =>
    match metadata.name with
    | none => .error "missing metadata.name"
    | some name =>
      .ok { administrative := value.administrative
            annotations := metadata.annotations
            builtin := value.builtin
            cluster_creator_default := value.cluster_creator_default
            context := value.context
            description := value.description
            display_name := value.display_name
            external := value.external
            hidden := value.hidden
            id := name
            labels := metadata.labels
            locked := value.locked
            project_creator_default := value.project_creator_default
            role_template_names := value.role_template_names
            rules := value.rules }

/-- `impl TryFrom<RoleTemplate> for IoCattleManagementv3RoleTemplate`
(src/rt.rs lines 226-268): domain to wire. Builds metadata from
annotations, labels and name (the rest `Default::default()`), and
synthesizes the `api_version` and `kind` constants. -/
def IoCattleManagementv3RoleTemplate.try_from (value : RoleTemplate) :
    Except String IoCattleManagementv3RoleTemplate :=
  let metadata : IoK8sApimachineryPkgApisMetaV1ObjectMeta :=
    { annotations := value.annotations
      labels := value.labels
      name := some value.id }
  .ok { administrative := value.administrative
        api_version := some "management.cattle.io/v3"
        builtin := value.builtin
        cluster_creator_default := value.cluster_creator_default
        context := value.context
        description := value.description
        display_name := value.display_name
        external := value.external
        hidden := value.hidden
        kind := some "RoleTemplate"
        locked := value.locked
        metadata := some metadata
        project_creator_default := value.project_creator_default
        role_template_names := value.role_template_names
        rules := value.rules }

/-- `IoK8sApimachineryPkgApisMetaV1ListMeta`: continuation metadata of a
wire list (next-page token, resource-version at listing time). Opaque to
this repository. -/
structure IoK8sApimachineryPkgApisMetaV1ListMeta where
  continue_ : Option String := none
  remaining_item_count : Option Int := none
  resource_version : Option String := none
  self_link : Option String := none
deriving DecidableEq, Repr

/-- Wire list `IoCattleManagementv3ProjectRoleTemplateBindingList`. -/
structure IoCattleManagementv3ProjectRoleTemplateBindingList where
  api_version : Option String := none
  items : List IoCattleManagementv3ProjectRoleTemplateBinding
  kind : Option String := none
  metadata : Option IoK8sApimachineryPkgApisMetaV1ListMeta := none
deriving DecidableEq, Repr

/-- Wire list `IoCattleManagementv3RoleTemplateList`. -/
structure IoCattleManagementv3RoleTemplateList where
  api_version : Option String := none
  items : List IoCattleManagementv3RoleTemplate
  kind : Option String := none
  metadata : Option IoK8sApimachineryPkgApisMetaV1ListMeta := none
deriving DecidableEq, Repr

/-- The delivered HTTP reply as this repository reads it
(`rancher_client` `ResponseContent`): status code plus raw body. The body
type `B` is abstract (a raw string in the source); `serde_json` decoding
over it is passed in as a function. -/
structure ResponseContent (B : Type) where
  status : Nat
  content : B
deriving DecidableEq, Repr

/-- `rancher_client::apis::Error<E>` as this repository produces it:
`Serde` for a decode failure (carrying the `serde_json` error detail
`SE`), `ResponseError` for a delivered non-success reply (carrying the
original status, the raw content, and the entity), and every
transport-level failure variant propagated unchanged, collapsed into the
opaque `transport` payload `TE`. -/
inductive RancherError (B SE TE E : Type) where
  | transport (e : TE)
  | serde (e : SE)
  | responseError (status : Nat) (content : B) (entity : Option E)
deriving DecidableEq, Repr

/-- `ListManagementCattleIoV3ProjectRoleTemplateBindingForAllNamespacesError`:
generated error entity for the all-namespaces binding list call. Only the
`UnknownValue` variant (carrying the decoded `serde_json::Value`, abstract
type `J`) is ever constructed by this repository. -/
inductive ListManagementCattleIoV3ProjectRoleTemplateBindingForAllNamespacesError (J : Type) where
  | unknownValue (j : J)
deriving DecidableEq, Repr

/-- `ListManagementCattleIoV3NamespacedProjectRoleTemplateBindingError`:
generated error entity for the namespaced binding list call. Only the
`UnknownValue` variant is ever constructed by this repository. -/
inductive ListManagementCattleIoV3NamespacedProjectRoleTemplateBindingError (J : Type) where
  | unknownValue (j : J)
deriving DecidableEq, Repr

/-- `ListManagementCattleIoV3RoleTemplateError`: generated error entity for
the role-template list call. Only the `UnknownValue` variant is ever
constructed by this repository. -/
inductive ListManagementCattleIoV3RoleTemplateError (J : Type) where
  | unknownValue (j : J)
deriving DecidableEq, Repr

/-- `get_project_role_template_bindings` (src/prtb.rs lines 47-108),
response classification. The transport call
(`list_management_cattle_io_v3_project_role_template_binding_for_all_namespaces`,
awaited) is an external collaborator: its outcome — a transport failure or
a delivered status-plus-body reply — is the `result` input, and the two
`serde_json::from_str` decodes (list target on the 200 branch, generic
`Value` otherwise) are the `decodeList` and `decodeJson` inputs. -/
def get_project_role_template_bindings {B J SE TE : Type}
    (decodeList : B → Except SE IoCattleManagementv3ProjectRoleTemplateBindingList)
    (decodeJson : B → Except SE J)
    (result : Except TE (ResponseContent B)) :
    Except
      (RancherError B SE TE
        (ListManagementCattleIoV3ProjectRoleTemplateBindingForAllNamespacesError J))
      IoCattleManagementv3ProjectRoleTemplateBindingList :=
  match result with
  | .error e => .error (.transport e)
  | .ok response_content =>
    if response_content.status = 200 then
      match decodeList response_content.content with
      | .ok data => .ok data
      | .error deserialize_err => .error (.serde deserialize_err)
    else
      match decodeJson response_content.content with
      | .ok unknown_data =>
        .error (.responseError response_content.status response_content.content
          (some (.unknownValue unknown_data)))
      | .error deserialize_err => .error (.serde deserialize_err)

/-- `get_namespaced_project_role_template_bindings` (src/prtb.rs lines
125-188), response classification. Identical structure to the
all-namespaces variant; only the error-entity type differs. The
`project_id` argument feeds the transport call only, so it does not appear
here. -/
def get_namespaced_project_role_template_bindings {B J SE TE : Type}
    (decodeList : B → Except SE IoCattleManagementv3ProjectRoleTemplateBindingList)
    (decodeJson : B → Except SE J)
    (result : Except TE (ResponseContent B)) :
    Except
      (RancherError B SE TE
        (ListManagementCattleIoV3NamespacedProjectRoleTemplateBindingError J))
      IoCattleManagementv3ProjectRoleTemplateBindingList :=
  match result with
  | .error e => .error (.transport e)
  | .ok response_content =>
    if response_content.status = 200 then
      match decodeList response_content.content with
      | .ok data => .ok data
      | .error deserialize_err => .error (.serde deserialize_err)
    else
      match decodeJson response_content.content with
      | .ok unknown_data =>
        .error (.responseError response_content.status response_content.content
          (some (.unknownValue unknown_data)))
      | .error deserialize_err => .error (.serde deserialize_err)

/-- `get_role_templates` (src/rt.rs lines 47-109), response
classification, with the transport call and the `serde_json` decodes
passed in as for the binding variants. -/
def get_role_templates {B J SE TE : Type}
    (decodeList : B → Except SE IoCattleManagementv3RoleTemplateList)
    (decodeJson : B → Except SE J)
    (result : Except TE (ResponseContent B)) :
    Except
      (RancherError B SE TE (ListManagementCattleIoV3RoleTemplateError J))
      IoCattleManagementv3RoleTemplateList :=
  match result with
  | .error e => .error (.transport e)
  | .ok response_content =>
    if response_content.status = 200 then
      match decodeList response_content.content with
      | .ok data => .ok data
      | .error deserialize_err => .error (.serde deserialize_err)
    else
      match decodeJson response_content.content with
      | .ok unknown_data =>
        .error (.responseError response_content.status response_content.content
          (some (.unknownValue unknown_data)))
      | .error deserialize_err => .error (.serde deserialize_err)

/-- Renames the all-namespaces error entity to the namespaced one,
identifying the two single-payload `UnknownValue` constructors. Used to
compare the outcomes of the two binding list functions. -/
def relabelBindingListError {B J SE TE : Type} :
    Except
      (RancherError B SE TE
        (ListManagementCattleIoV3ProjectRoleTemplateBindingForAllNamespacesError J))
      IoCattleManagementv3ProjectRoleTemplateBindingList →
    Except
      (RancherError B SE TE
        (ListManagementCattleIoV3NamespacedProjectRoleTemplateBindingError J))
      IoCattleManagementv3ProjectRoleTemplateBindingList
  | .ok data => .ok data
  | .error (.transport e) => .error (.transport e)
  | .error (.serde e) => .error (.serde e)
  | .error (.responseError status content entity) =>
    .error (.responseError status content
      (entity.map fun e =>
        match e with
        | .unknownValue j => .unknownValue j))

/-- `impl PartialEq<ProjectRoleTemplateBinding> for
IoCattleManagementv3ProjectRoleTemplateBinding` (src/prtb.rs lines
345-359): wire-against-domain equality on `metadata.name` versus `id` and
the seven binding-specific fields. -/
def IoCattleManagementv3ProjectRoleTemplateBinding.eq
    (self : IoCattleManagementv3ProjectRoleTemplateBinding)
    (other : ProjectRoleTemplateBinding) : Bool :=
  let lhs := self.metadata.bind fun m => m.name
  let rhs := some other.id
  decide (lhs = rhs)
    && decide (self.group_name = other.group_name)
    && decide (self.group_principal_name = other.group_principal_name)
    && decide (self.project_name = other.project_name)
    && decide (self.role_template_name = other.role_template_name)
    && decide (self.service_account = other.service_account)
    && decide (self.user_name = other.user_name)
    && decide (self.user_principal_name = other.user_principal_name)

/-- `impl PartialEq<IoCattleManagementv3ProjectRoleTemplateBinding> for
ProjectRoleTemplateBinding` (src/prtb.rs lines 361-377): the reverse
direction delegates with `other == self`. -/
def ProjectRoleTemplateBinding.eq (self : ProjectRoleTemplateBinding)
    (other : IoCattleManagementv3ProjectRoleTemplateBinding) : Bool :=
  other.eq self

/-- `impl PartialEq<RoleTemplate> for IoCattleManagementv3RoleTemplate`
(src/rt.rs lines 270-289): wire-against-domain equality on
`metadata.name` versus `id` and the twelve role-template-specific
fields. -/
def IoCattleManagementv3RoleTemplate.eq
    (self : IoCattleManagementv3RoleTemplate) (other : RoleTemplate) : Bool :=
  let lhs := self.metadata.bind fun m => m.name
  let rhs := some other.id
  decide (lhs = rhs)
    && decide (self.administrative = other.administrative)
    && decide (self.builtin = other.builtin)
    && decide (self.cluster_creator_default = other.cluster_creator_default)
    && decide (self.context = other.context)
    && decide (self.description = other.description)
    && decide (self.display_name = other.display_name)
    && decide (self.external = other.external)
    && decide (self.hidden = other.hidden)
    && decide (self.locked = other.locked)
    && decide (self.project_creator_default = other.project_creator_default)
    && decide (self.role_template_names = other.role_template_names)
    && decide (self.rules = other.rules)

/-- `impl PartialEq<IoCattleManagementv3RoleTemplate> for RoleTemplate`
(src/rt.rs lines 292-314): the reverse direction delegates with
`other == self`. -/
def RoleTemplate.eq (self : RoleTemplate)
    (other : IoCattleManagementv3RoleTemplate) : Bool :=
  other.eq self

/-- C4: for every pair of a wire resource and a domain resource of the same
kind (binding or role template), the cross-type equality relation is
symmetric — comparing wire against domain gives the same boolean as
comparing domain against wire. Holds definitionally: the reverse
direction delegates with `other == self`. -/
theorem C4_eq_symmetric
    (w : IoCattleManagementv3ProjectRoleTemplateBinding)
    (d : ProjectRoleTemplateBinding)
    (wr : IoCattleManagementv3RoleTemplate) (dr : RoleTemplate) :
    w.eq d = d.eq w ∧ wr.eq dr = dr.eq wr :=
  ⟨rfl, rfl⟩

/-- C9: the binding cross-type equality never reads the domain value's
`namespace`, `labels`, `annotations`, `resource_version` or `uid` fields —
replacing them by arbitrary values leaves the comparison unchanged, in
both directions. -/
theorem C9_prtb_eq_ignores_untracked_fields
    (w : IoCattleManagementv3ProjectRoleTemplateBinding)
    (d : ProjectRoleTemplateBinding) (ns : String) (lab ann : Option StrMap)
    (rv u : Option String) :
    w.eq { d with namespace_ := ns, labels := lab, annotations := ann,
                  resource_version := rv, uid := u } = w.eq d
    ∧ ProjectRoleTemplateBinding.eq
        { d with namespace_ := ns, labels := lab, annotations := ann,
                 resource_version := rv, uid := u } w
      = d.eq w :=
  ⟨rfl, rfl⟩

/-- C5: a wire resource whose metadata block is absent, or whose
`metadata.name` is absent, is unequal to every domain resource of its
kind, in both comparison directions, regardless of all other fields. -/
theorem C5_missing_name_never_equal
    (w : IoCattleManagementv3ProjectRoleTemplateBinding)
    (d : ProjectRoleTemplateBinding)
    (wr : IoCattleManagementv3RoleTemplate) (dr : RoleTemplate)
    (h1 : w.metadata = none ∨
      ∃ m, w.metadata = some m ∧ m.name = none)
    (h2 : wr.metadata = none ∨
      ∃ m, wr.metadata = some m ∧ m.name = none) :
    w.eq d = false ∧ d.eq w = false ∧ wr.eq dr = false ∧ dr.eq wr = false := by
  have hb1 : (w.metadata.bind fun m => m.name) = none := by
    rcases h1 with h | ⟨m, hm, hn⟩
    · simp [h]
    · simp [hm, hn]
  have hb2 : (wr.metadata.bind fun m => m.name) = none := by
    rcases h2 with h | ⟨m, hm, hn⟩
    · simp [h]
    · simp [hm, hn]
  refine ⟨?_, ?_, ?_, ?_⟩ <;>
    simp [IoCattleManagementv3ProjectRoleTemplateBinding.eq,
      ProjectRoleTemplateBinding.eq, IoCattleManagementv3RoleTemplate.eq,
      RoleTemplate.eq, hb1, hb2]

/-- Witness for C5 at concrete inputs: a binding wire value with no
metadata block, and a role-template wire value whose metadata has no
name. -/
theorem C5_missing_name_never_equal_witness :
    IoCattleManagementv3ProjectRoleTemplateBinding.eq
      { project_name := "p1", role_template_name := "viewer" }
      { id := "b1", namespace_ := "", project_name := "p1",
        role_template_name := "viewer" } = false
    ∧ ProjectRoleTemplateBinding.eq
        { id := "b1", namespace_ := "", project_name := "p1",
          role_template_name := "viewer" }
        { project_name := "p1", role_template_name := "viewer" } = false
    ∧ IoCattleManagementv3RoleTemplate.eq
        { metadata := some { name := none } } { id := "admin-template" } = false
    ∧ RoleTemplate.eq { id := "admin-template" }
        { metadata := some { name := none } } = false :=
  C5_missing_name_never_equal
    { project_name := "p1", role_template_name := "viewer" }
    { id := "b1", namespace_ := "", project_name := "p1",
      role_template_name := "viewer" }
    { metadata := some { name := none } } { id := "admin-template" }
    (Or.inl rfl) (Or.inr ⟨_, rfl, rfl⟩)

/-- C6: a wire resource and a domain resource of the same kind that agree
on the identity (`metadata.name` equals `id`) and on every kind-specific
field compared by the relation are equal in both directions, whatever the
values of the fields absent from the domain model (`kind`, `api_version`,
and the server-managed metadata fields). -/
theorem C6_eq_on_field_intersection
    (w : IoCattleManagementv3ProjectRoleTemplateBinding)
    (m : IoK8sApimachineryPkgApisMetaV1ObjectMeta)
    (d : ProjectRoleTemplateBinding)
    (wr : IoCattleManagementv3RoleTemplate)
    (mr : IoK8sApimachineryPkgApisMetaV1ObjectMeta) (dr : RoleTemplate)
    (hm : w.metadata = some m) (hn : m.name = some d.id)
    (h1 : w.group_name = d.group_name)
    (h2 : w.group_principal_name = d.group_principal_name)
    (h3 : w.project_name = d.project_name)
    (h4 : w.role_template_name = d.role_template_name)
    (h5 : w.service_account = d.service_account)
    (h6 : w.user_name = d.user_name)
    (h7 : w.user_principal_name = d.user_principal_name)
    (hmr : wr.metadata = some mr) (hnr : mr.name = some dr.id)
    (g1 : wr.administrative = dr.administrative)
    (g2 : wr.builtin = dr.builtin)
    (g3 : wr.cluster_creator_default = dr.cluster_creator_default)
    (g4 : wr.context = dr.context)
    (g5 : wr.description = dr.description)
    (g6 : wr.display_name = dr.display_name)
    (g7 : wr.external = dr.external)
    (g8 : wr.hidden = dr.hidden)
    (g9 : wr.locked = dr.locked)
    (g10 : wr.project_creator_default = dr.project_creator_default)
    (g11 : wr.role_template_names = dr.role_template_names)
    (g12 : wr.rules = dr.rules) :
    w.eq d = true ∧ d.eq w = true ∧ wr.eq dr = true ∧ dr.eq wr = true := by
  refine ⟨?_, ?_, ?_, ?_⟩ <;>
    simp [IoCattleManagementv3ProjectRoleTemplateBinding.eq,
      ProjectRoleTemplateBinding.eq, IoCattleManagementv3RoleTemplate.eq,
      RoleTemplate.eq, hm, hn, h1, h2, h3, h4, h5, h6, h7,
      hmr, hnr, g1, g2, g3, g4, g5, g6, g7, g8, g9, g10, g11, g12]

/-- Witness for C6 at concrete inputs: the wire values carry `kind`,
`api_version` and server-managed metadata (`generation`, `uid`,
`resource_version`) that the domain values do not track, and the two
sides are still equal in both directions. -/
theorem C6_eq_on_field_intersection_witness :
    IoCattleManagementv3ProjectRoleTemplateBinding.eq
      { api_version := some "management.cattle.io/v3",
        kind := some "ProjectRoleTemplateBinding",
        metadata := some { name := some "b1", generation := some 3,
                           uid := some "u-123", resource_version := some "42" },
        project_name := "p1", role_template_name := "viewer",
        user_name := some "alice" }
      { id := "b1", namespace_ := "", project_name := "p1",
        role_template_name := "viewer", user_name := some "alice" } = true
    ∧ ProjectRoleTemplateBinding.eq
        { id := "b1", namespace_ := "", project_name := "p1",
          role_template_name := "viewer", user_name := some "alice" }
        { api_version := some "management.cattle.io/v3",
          kind := some "ProjectRoleTemplateBinding",
          metadata := some { name := some "b1", generation := some 3,
                             uid := some "u-123", resource_version := some "42" },
          project_name := "p1", role_template_name := "viewer",
          user_name := some "alice" } = true
    ∧ IoCattleManagementv3RoleTemplate.eq
        { api_version := some "management.cattle.io/v3",
          kind := some "RoleTemplate",
          metadata := some { name := some "admin-template",
                             creation_timestamp := some "2024-01-01T00:00:00Z" },
          context := some Context.cluster, locked := some false }
        { id := "admin-template", context := some Context.cluster,
          locked := some false } = true
    ∧ RoleTemplate.eq
        { id := "admin-template", context := some Context.cluster,
          locked := some false }
        { api_version := some "management.cattle.io/v3",
          kind := some "RoleTemplate",
          metadata := some { name := some "admin-template",
                             creation_timestamp := some "2024-01-01T00:00:00Z" },
          context := some Context.cluster, locked := some false } = true :=
  C6_eq_on_field_intersection _ _ _ _ _ _
    rfl rfl rfl rfl rfl rfl rfl rfl rfl rfl rfl rfl rfl rfl rfl rfl rfl rfl
    rfl rfl rfl rfl rfl

/-- C7: the domain-to-wire conversion always succeeds for both kinds, and
the produced wire resource carries the synthesized `api_version` and
`kind` constants, `metadata.name` set from the domain `id`,
`metadata.namespace` set from the domain namespace field (which only the
binding kind has), and the labels and annotations copied through. -/
theorem C7_domain_to_wire_total
    (d : ProjectRoleTemplateBinding) (r : RoleTemplate) :
    (∃ w, IoCattleManagementv3ProjectRoleTemplateBinding.try_from d = .ok w
      ∧ w.api_version = some "management.cattle.io/v3"
      ∧ w.kind = some "ProjectRoleTemplateBinding"
      ∧ ∃ m, w.metadata = some m ∧ m.name = some d.id
          ∧ m.namespace_ = some d.namespace_
          ∧ m.labels = d.labels ∧ m.annotations = d.annotations)
    ∧ (∃ w, IoCattleManagementv3RoleTemplate.try_from r = .ok w
      ∧ w.api_version = some "management.cattle.io/v3"
      ∧ w.kind = some "RoleTemplate"
      ∧ ∃ m, w.metadata = some m ∧ m.name = some r.id
          ∧ m.labels = r.labels ∧ m.annotations = r.annotations) :=
  ⟨⟨_, rfl, rfl, rfl, _, rfl, rfl, rfl, rfl, rfl⟩,
   ⟨_, rfl, rfl, rfl, _, rfl, rfl, rfl, rfl⟩⟩

/-- C8: a binding wire resource whose metadata is present with a name but
whose `metadata.namespace` is absent converts successfully, with the
domain namespace defaulted to the empty string and every optional field
(binding-specific fields, labels, annotations, `resource_version`,
`uid`) copied through unchanged. -/
theorem C8_prtb_namespace_default
    (w : IoCattleManagementv3ProjectRoleTemplateBinding)
    (m : IoK8sApimachineryPkgApisMetaV1ObjectMeta) (n : String)
    (hm : w.metadata = some m) (hn : m.name = some n)
    (hns : m.namespace_ = none) :
    ProjectRoleTemplateBinding.try_from w = .ok
      { annotations := m.annotations
        group_name := w.group_name
        group_principal_name := w.group_principal_name
        id := n
        labels := m.labels
        namespace_ := ""
        project_name := w.project_name
        role_template_name := w.role_template_name
        resource_version := m.resource_version
        service_account := w.service_account
        uid := m.uid
        user_name := w.user_name
        user_principal_name := w.user_principal_name } := by
  simp [ProjectRoleTemplateBinding.try_from, hm, hn, hns]

/-- Witness for C8: the end-to-end scenario-B wire object
(`metadata.name="b1"`, `projectName="p1"`, `roleTemplateName="viewer"`,
no namespace) converts to the domain object with `id="b1"`,
`namespace=""`, and the two names copied. -/
theorem C8_prtb_namespace_default_witness :
    ProjectRoleTemplateBinding.try_from
      { metadata := some { name := some "b1" },
        project_name := "p1", role_template_name := "viewer" } = .ok
      { id := "b1", namespace_ := "", project_name := "p1",
        role_template_name := "viewer" } :=
  C8_prtb_namespace_default
    { metadata := some { name := some "b1" },
      project_name := "p1", role_template_name := "viewer" }
    { name := some "b1" } "b1" rfl rfl rfl

/-- C2 counterexample: the claim requires the conversion to fail when the
wire name is present but empty; the code only checks presence
(`ok_or("missing name")`), so a binding wire value whose `metadata.name`
is the empty string converts successfully, with `id = ""`. -/
theorem C2_empty_name_succeeds_counterexample :
    ProjectRoleTemplateBinding.try_from
      { metadata := some { name := some "" },
        project_name := "p1", role_template_name := "viewer" } = .ok
      { id := "", namespace_ := "", project_name := "p1",
        role_template_name := "viewer" } := rfl

/-- C2 (amended): for either kind, wire-to-domain conversion succeeds iff
the metadata block is present and carries a name (the name may be the
empty string); when the metadata block is absent the conversion fails
with the missing-field error `"missing metadata"`, and when the name is
absent it fails with `"missing name"` (binding kind) or
`"missing metadata.name"` (role-template kind), returning no partial
object in either case. -/
theorem C2_required_fields
    (w : IoCattleManagementv3ProjectRoleTemplateBinding)
    (wr : IoCattleManagementv3RoleTemplate) :
    ((ProjectRoleTemplateBinding.try_from w).isOk = true ↔
      ∃ m n, w.metadata = some m ∧ m.name = some n)
    ∧ (w.metadata = none →
        ProjectRoleTemplateBinding.try_from w = .error "missing metadata")
    ∧ (∀ m, w.metadata = some m → m.name = none →
        ProjectRoleTemplateBinding.try_from w = .error "missing name")
    ∧ ((RoleTemplate.try_from wr).isOk = true ↔
      ∃ m n, wr.metadata = some m ∧ m.name = some n)
    ∧ (wr.metadata = none →
        RoleTemplate.try_from wr = .error "missing metadata")
    ∧ (∀ m, wr.metadata = some m → m.name = none →
        RoleTemplate.try_from wr = .error "missing metadata.name") := by
  refine ⟨?_, ?_, ?_, ?_, ?_, ?_⟩
  · cases hw : w.metadata with
    | none => simp [ProjectRoleTemplateBinding.try_from, hw, Except.isOk, Except.toBool]
    | some m =>
      cases hn : m.name with
      | none =>
        simp [ProjectRoleTemplateBinding.try_from, hw, hn, Except.isOk, Except.toBool]
      | some nm =>
        simp [ProjectRoleTemplateBinding.try_from, hw, hn, Except.isOk, Except.toBool]
  · intro h; simp [ProjectRoleTemplateBinding.try_from, h]
  · intro m hm hn; simp [ProjectRoleTemplateBinding.try_from, hm, hn]
  · cases hw : wr.metadata with
    | none => simp [RoleTemplate.try_from, hw, Except.isOk, Except.toBool]
    | some m =>
      cases hn : m.name with
      | none => simp [RoleTemplate.try_from, hw, hn, Except.isOk, Except.toBool]
      | some nm => simp [RoleTemplate.try_from, hw, hn, Except.isOk, Except.toBool]
  · intro h; simp [RoleTemplate.try_from, h]
  · intro m hm hn; simp [RoleTemplate.try_from, hm, hn]

/-- Witness for C2 (amended) at concrete inputs: a binding wire value
without a metadata block fails with `"missing metadata"`, and a
role-template wire value whose metadata lacks a name fails with
`"missing metadata.name"`. -/
theorem C2_required_fields_witness :
    ProjectRoleTemplateBinding.try_from
      { project_name := "p1", role_template_name := "viewer" }
      = .error "missing metadata"
    ∧ RoleTemplate.try_from { metadata := some { name := none } }
      = .error "missing metadata.name" :=
  ⟨(C2_required_fields { project_name := "p1", role_template_name := "viewer" }
      { metadata := some { name := none } }).2.1 rfl,
   (C2_required_fields { project_name := "p1", role_template_name := "viewer" }
      { metadata := some { name := none } }).2.2.2.2.2
     { name := none } rfl rfl⟩

/-- C1 counterexample: the claim includes binding domain values with
`resource_version` set, but the domain-to-wire conversion builds the
metadata block with `..Default::default()` and therefore drops
`resource_version` (and `uid`), so converting such a value to the wire
representation and back does not return the original value. -/
theorem C1_roundtrip_counterexample :
    Except.bind
      (IoCattleManagementv3ProjectRoleTemplateBinding.try_from
        { id := "binding-id", namespace_ := "namespace-id",
          project_name := "project-id", role_template_name := "role-template",
          resource_version := some "resource-version" })
      ProjectRoleTemplateBinding.try_from
    ≠ .ok
      { id := "binding-id", namespace_ := "namespace-id",
        project_name := "project-id", role_template_name := "role-template",
        resource_version := some "resource-version" } := by decide

/-- C1 (amended): converting a domain resource to the wire representation
and back yields the original value for every role-template domain value,
and for every binding domain value whose `resource_version` and `uid`
fields are unset (the domain-to-wire conversion leaves those two
server-managed metadata fields at their defaults, so they do not
round-trip). -/
theorem C1_roundtrip
    (d : ProjectRoleTemplateBinding) (r : RoleTemplate) :
    (d.resource_version = none → d.uid = none →
      Except.bind (IoCattleManagementv3ProjectRoleTemplateBinding.try_from d)
        ProjectRoleTemplateBinding.try_from = .ok d)
    ∧ Except.bind (IoCattleManagementv3RoleTemplate.try_from r)
        RoleTemplate.try_from = .ok r := by
  constructor
  · intro h1 h2
    obtain ⟨ann, gn, gpn, i, lab, ns, pn, rtn, rv, sa, u, un, upn⟩ := d
    simp only at h1 h2
    subst h1; subst h2
    rfl
  · obtain ⟨adm, ann, bi, ccd, cx, de, dn, ex, hi, lab, lo, i, pcd, rtns, ru⟩ := r
    rfl

/-- Witness for C1 (amended) at concrete inputs: a binding with
`resource_version` and `uid` unset and a role template, both carrying a
sample of the optional fields, round-trip exactly. -/
theorem C1_roundtrip_witness :
    Except.bind
      (IoCattleManagementv3ProjectRoleTemplateBinding.try_from
        { annotations := some [("a", "1")], group_name := some "group1",
          id := "binding-id", labels := some [("l", "2")],
          namespace_ := "namespace-id", project_name := "project-id",
          role_template_name := "role-template", user_name := some "user1" })
      ProjectRoleTemplateBinding.try_from
    = .ok
      { annotations := some [("a", "1")], group_name := some "group1",
        id := "binding-id", labels := some [("l", "2")],
        namespace_ := "namespace-id", project_name := "project-id",
        role_template_name := "role-template", user_name := some "user1" }
    ∧ Except.bind
        (IoCattleManagementv3RoleTemplate.try_from
          { administrative := some true, context := some Context.cluster,
            display_name := some "Admin", id := "admin-template",
            role_template_names := some ["base-template"], rules := some [] })
        RoleTemplate.try_from
      = .ok
        { administrative := some true, context := some Context.cluster,
          display_name := some "Admin", id := "admin-template",
          role_template_names := some ["base-template"], rules := some [] } :=
  ⟨(C1_roundtrip
      { annotations := some [("a", "1")], group_name := some "group1",
        id := "binding-id", labels := some [("l", "2")],
        namespace_ := "namespace-id", project_name := "project-id",
        role_template_name := "role-template", user_name := some "user1" }
      { administrative := some true, context := some Context.cluster,
        display_name := some "Admin", id := "admin-template",
        role_template_names := some ["base-template"], rules := some [] }).1
    rfl rfl,
   (C1_roundtrip
      { annotations := some [("a", "1")], group_name := some "group1",
        id := "binding-id", labels := some [("l", "2")],
        namespace_ := "namespace-id", project_name := "project-id",
        role_template_name := "role-template", user_name := some "user1" }
      { administrative := some true, context := some Context.cluster,
        display_name := some "Admin", id := "admin-template",
        role_template_names := some ["base-template"], rules := some [] }).2⟩

/-- C3: for every successfully delivered HTTP reply, exactly four
outcomes arise, and they are exhaustive, for both the binding list
function and the role-template list function: a success status
(`StatusCode::OK`, 200) with a body decoding as the kind's wire list
yields that list; a success status with an undecodable body yields a
decode (`Serde`) error; a non-success status with a body decoding as JSON
yields a response error carrying the original status and the decoded
payload; a non-success status with an undecodable body yields a decode
error. -/
theorem C3_classifier_exhaustive (B J SE TE : Type)
    (decodeListP : B → Except SE IoCattleManagementv3ProjectRoleTemplateBindingList)
    (decodeListR : B → Except SE IoCattleManagementv3RoleTemplateList)
    (decodeJson : B → Except SE J) (rc : ResponseContent B) :
    ((rc.status = 200 ∧ ∃ l, decodeListP rc.content = .ok l ∧
        @get_project_role_template_bindings B J SE TE decodeListP decodeJson
          (.ok rc) = .ok l)
      ∨ (rc.status = 200 ∧ ∃ e, decodeListP rc.content = .error e ∧
          @get_project_role_template_bindings B J SE TE decodeListP decodeJson
            (.ok rc) = .error (.serde e))
      ∨ (rc.status ≠ 200 ∧ ∃ j, decodeJson rc.content = .ok j ∧
          @get_project_role_template_bindings B J SE TE decodeListP decodeJson
            (.ok rc) = .error (.responseError rc.status rc.content
              (some (.unknownValue j))))
      ∨ (rc.status ≠ 200 ∧ ∃ e, decodeJson rc.content = .error e ∧
          @get_project_role_template_bindings B J SE TE decodeListP decodeJson
            (.ok rc) = .error (.serde e)))
    ∧ ((rc.status = 200 ∧ ∃ l, decodeListR rc.content = .ok l ∧
        @get_role_templates B J SE TE decodeListR decodeJson (.ok rc) = .ok l)
      ∨ (rc.status = 200 ∧ ∃ e, decodeListR rc.content = .error e ∧
          @get_role_templates B J SE TE decodeListR decodeJson (.ok rc)
            = .error (.serde e))
      ∨ (rc.status ≠ 200 ∧ ∃ j, decodeJson rc.content = .ok j ∧
          @get_role_templates B J SE TE decodeListR decodeJson (.ok rc)
            = .error (.responseError rc.status rc.content
              (some (.unknownValue j))))
      ∨ (rc.status ≠ 200 ∧ ∃ e, decodeJson rc.content = .error e ∧
          @get_role_templates B J SE TE decodeListR decodeJson (.ok rc)
            = .error (.serde e))) := by
  constructor
  · by_cases h : rc.status = 200
    · cases hd : decodeListP rc.content with
      | ok l =>
        exact Or.inl ⟨h, l, rfl,
          by simp [get_project_role_template_bindings, h, hd]⟩
      | error e =>
        exact Or.inr (Or.inl ⟨h, e, rfl,
          by simp [get_project_role_template_bindings, h, hd]⟩)
    · cases hj : decodeJson rc.content with
      | ok j =>
        exact Or.inr (Or.inr (Or.inl ⟨h, j, rfl,
          by simp [get_project_role_template_bindings, h, hj]⟩))
      | error e =>
        exact Or.inr (Or.inr (Or.inr ⟨h, e, rfl,
          by simp [get_project_role_template_bindings, h, hj]⟩))
  · by_cases h : rc.status = 200
    · cases hd : decodeListR rc.content with
      | ok l => exact Or.inl ⟨h, l, rfl, by simp [get_role_templates, h, hd]⟩
      | error e =>
        exact Or.inr (Or.inl ⟨h, e, rfl, by simp [get_role_templates, h, hd]⟩)
    · cases hj : decodeJson rc.content with
      | ok j =>
        exact Or.inr (Or.inr (Or.inl ⟨h, j, rfl,
          by simp [get_role_templates, h, hj]⟩))
      | error e =>
        exact Or.inr (Or.inr (Or.inr ⟨h, e, rfl,
          by simp [get_role_templates, h, hj]⟩))

/-- C10: on every raw transport result, the namespaced binding list
function classifies exactly as the all-namespaces binding list function:
identical success lists, decode errors, propagated transport failures,
and response errors with the same status, body and `UnknownValue`
payload, up to the renaming of the two generated error-entity types. -/
theorem C10_namespaced_matches_all_namespaces (B J SE TE : Type)
    (decodeList : B → Except SE IoCattleManagementv3ProjectRoleTemplateBindingList)
    (decodeJson : B → Except SE J) (result : Except TE (ResponseContent B)) :
    get_namespaced_project_role_template_bindings decodeList decodeJson result
      = relabelBindingListError
        (get_project_role_template_bindings decodeList decodeJson result) := by
  cases result with
  | error e => rfl
  | ok rc =>
    by_cases h : rc.status = 200
    · cases hd : decodeList rc.content <;>
        simp [get_namespaced_project_role_template_bindings,
          get_project_role_template_bindings, relabelBindingListError, h, hd]
    · cases hj : decodeJson rc.content <;>
        simp [get_namespaced_project_role_template_bindings,
          get_project_role_template_bindings, relabelBindingListError, h, hj]

end RancherCac
